import Mathlib

/-!
Verification of the NicTool client (src/NicTool/NicTool.py): a shallow
embedding of the zone-resolution and forward/reverse record reconciliation
engine, with theorems settling the specification claims.

Modelling conventions:
* Python strings are Lean `String`s; helpers mirror `str.split`, `str.rstrip`,
  `str.strip` and `str.partition` character-by-character.
* Python exceptions become the `exn` constructor of `PyResult` (or
  `Except.error` for the zone-resolution layer); the message records the
  exception raised.
* The remote SOAP service is an abstract oracle: `get_group_zones` pages are
  a function of the searched zone name and the start offset, and record
  searches (`find_record_in_zone`, i.e. `find_zone` + `get_zone_records`)
  are a function of zone, record name and record type.  Mutating RPCs and
  warnings are recorded as an explicit event trace.
* Python truthiness is modelled explicitly (`pyStrTruthy`, `pyIntTruthy`,
  and the `truthy` field of a duck-typed SOAP response object).
-/

/-- Mirrors Python `s.split('.')` on a character list: `"" ↦ [""]`,
`"a.b" ↦ ["a","b"]`, `"." ↦ ["",""]`. -/
def splitDot : List Char → List (List Char)
  | [] => [[]]
  | c :: rest =>
    if c = '.' then [] :: splitDot rest
    else
      match splitDot rest with
      | [] => [[c]]
      | t :: ts => (c :: t) :: ts

/-- Auxiliary for `partitionDot`: locate the first dot, returning the part
before it and the part after it, or `none` when there is no dot. -/
def partDotAux : List Char → Option (List Char × List Char)
  | [] => none
  | c :: rest =>
    if c = '.' then some ([], rest)
    else
      match partDotAux rest with
      | none => none
      | some (pre, post) => some (c :: pre, post)

/-- Mirrors Python `s.partition('.')`: `(before, separator, after)`; when no
dot occurs the result is `(s, "", "")`. -/
def partitionDot (s : String) : String × String × String :=
  match partDotAux s.data with
  | none => (s, "", "")
  | some (pre, post) => (String.mk pre, ".", String.mk post)

/-- Mirrors Python `s.rstrip(c)`: drop every trailing occurrence of `c`. -/
def pyRstrip (s : String) (c : Char) : String :=
  String.mk ((s.data.reverse.dropWhile (fun x => x == c)).reverse)

/-- Mirrors Python `s.lstrip(c)`: drop every leading occurrence of `c`. -/
def pyLstrip (s : String) (c : Char) : String :=
  String.mk (s.data.dropWhile (fun x => x == c))

/-- Mirrors Python `s.strip(c)`: drop occurrences of `c` at both ends. -/
def pyStrip (s : String) (c : Char) : String :=
  pyRstrip (pyLstrip s c) c

/-- Python truthiness of an optional string argument: `None` and `""` are
falsy, every other string is truthy. -/
def pyStrTruthy : Option String → Bool
  | none => false
  | some s => s != ""

/-- Python truthiness of the `zone_id` variable in `find_zone`: `None` and
the integer `0` are falsy. -/
def pyIntTruthy : Option Nat → Bool
  | none => false
  | some n => n != 0

/-- Embeds `ip_to_arpa` (NicTool.py lines 209-213): unpack
`a, b, c, d = ipaddr.split(".")` — a `ValueError` (modelled as `none`) when
the split does not yield exactly four parts — and return
`(d, "c.b.a.in-addr.arpa")`. -/
def ip_to_arpa (ipaddr : String) : Option (String × String) :=
  match (splitDot ipaddr.data).map String.mk with
  | [a, b, c, d] => some (d, c ++ "." ++ b ++ "." ++ a ++ ".in-addr.arpa")
  | _ => none

/-- Decimal value of a digit list, as for an IPv4 octet. -/
def octetVal (s : List Char) : Nat :=
  s.foldl (fun acc ch => acc * 10 + (ch.toNat - 48)) 0

/-- Validity of one IPv4 octet under Python `ipaddress.IPv4Address`: one to
three decimal digits, value at most 255, and no leading zero. -/
def valid_octet (s : List Char) : Bool :=
  (!s.isEmpty) && decide (s.length ≤ 3) && s.all Char.isDigit &&
    decide (octetVal s ≤ 255) && (decide (s.length = 1) || !(s.headD '0' == '0'))

/-- Embeds `check_ip_addr` (NicTool.py lines 201-207).  The Python code asks
the `ipaddress` stdlib collaborator to parse the string and returns whether
no `AddressValueError` was raised; the acceptance condition — four
dot-separated decimal octets, each 0 to 255 with no leading zeros — is
modelled directly. -/
def check_ip_addr (ipaddr : String) : Bool :=
  match splitDot ipaddr.data with
  | [a, b, c, d] => valid_octet a && valid_octet b && valid_octet c && valid_octet d
  | _ => false

/-- One entry of a `get_group_zones` page: a zone name with its identifier. -/
structure ZoneEntry where
  zone : String
  nt_zone_id : Nat
deriving DecidableEq

/-- A page returned by the `get_group_zones` search RPC, as the duck-typed
SOAP response read by `find_zone`: `total`, `page`, `limit`, the `zones`
list, and the `nt_zone_id` field the code reads when `total == 1`. -/
structure GroupZonesPage where
  total : Int
  page : Int
  limit : Int
  nt_zone_id : Nat
  zones : List ZoneEntry
deriving DecidableEq

/-- The remote zone-search service, abstracted: for a searched zone name
(the `0_value` predicate of the request) and a `start` offset it returns the
corresponding page. -/
def ZonePages := String → Int → GroupZonesPage

/-- The `while remaining > 0 and zone_id:` loop of `find_zone`
(NicTool.py lines 137-162), translated verbatim with a fuel bound on the
number of iterations.  State: `start`, `remaining`, and the Python variable
`zone_id` (initially `None`). -/
def findZoneGo (pages : Int → GroupZonesPage) (wanted_zone : String) :
    Nat → Int → Int → Option Nat → Except String Nat
  | 0, _, remaining, zone_id =>
    if 0 < remaining ∧ pyIntTruthy zone_id = true then
      .error ("loop fuel exhausted")
    else
      .error ("Unable to find zone " ++ wanted_zone)
  | f + 1, start, remaining, zone_id =>
    if 0 < remaining ∧ pyIntTruthy zone_id = true then
      let response := pages start
      let zone_id1 := if response.total = 1 then some response.nt_zone_id else zone_id
      match response.zones.find? (fun cz => cz.zone.toUpper == wanted_zone.toUpper) with
      | some cz => .ok cz.nt_zone_id
      | none =>
        let offset := response.page * response.limit
        findZoneGo pages wanted_zone f offset (response.total - offset) zone_id1
    else
      .error ("Unable to find zone " ++ wanted_zone)

/-- Embeds `find_zone` (NicTool.py lines 126-164): `zone_id = None`,
`start = 0`, `remaining = 1`, then the paginated search loop; when the loop
exits the code logs an error and raises `Unable to find zone ...`. -/
def find_zone (pages : ZonePages) (fuel : Nat) (wanted_zone : String) : Except String Nat :=
  findZoneGo (pages wanted_zone) wanted_zone fuel 0 1 none

/-- The `while fqdn:` loop of `hostname_to_name_zone` (NicTool.py lines
219-225): resolve the remainder as a zone, on a truthy id break and return
`(name.strip('.'), fqdn)`; otherwise peel the leftmost label with
`partition('.')` and accumulate it onto `name`.  An exception from
`find_zone` propagates. -/
def hostnameToNameZoneGo (pages : ZonePages) (fuelZ : Nat) :
    Nat → String → String → Except String (String × String)
  | 0, name, fqdn =>
    if fqdn = "" then .ok (pyStrip name '.', fqdn)
    else .error ("loop fuel exhausted")
  | f + 1, name, fqdn =>
    if fqdn = "" then .ok (pyStrip name '.', fqdn)
    else
      match find_zone pages fuelZ fqdn with
      | .error e => .error e
      | .ok zone_id =>
        if zone_id != 0 then .ok (pyStrip name '.', fqdn)
        else
          let p := partitionDot fqdn
          hostnameToNameZoneGo pages fuelZ f (name ++ "." ++ p.1) p.2.2

/-- Embeds `hostname_to_name_zone` (NicTool.py lines 215-226):
`fqdn = hostname.rstrip('.')`, `name = ''`, then the peeling loop. -/
def hostname_to_name_zone (pages : ZonePages) (fuelZ fuel : Nat) (hostname : String) :
    Except String (String × String) :=
  hostnameToNameZoneGo pages fuelZ fuel ("") (pyRstrip hostname '.')

/-- A concrete environment in which exactly the zone `example.com` is
registered, with identifier 42: the exact-match search returns it for the
query `example.com` and an empty page for every other query. -/
def onlyExampleCom : ZonePages := fun wanted _ =>
  if wanted = "example.com" then
    { total := 1, page := 1, limit := 255, nt_zone_id := 42,
      zones := [{ zone := "example.com", nt_zone_id := 42 }] }
  else
    { total := 0, page := 1, limit := 255, nt_zone_id := 0, zones := [] }

/-- A concrete environment with no registered zones at all. -/
def noZones : ZonePages := fun _ _ =>
  { total := 0, page := 1, limit := 255, nt_zone_id := 0, zones := [] }

/-- One record of a `get_zone_records` response, with the fields the client
reads: the record identifier and the `address` value. -/
structure RecordEntry where
  nt_zone_record_id : Nat
  address : String
deriving DecidableEq

/-- The duck-typed SOAP response of a record search: its Python truthiness
(tested by `if ip_record:`), the `total` match count, and the `records`
list. -/
structure RecordsResponse where
  truthy : Bool
  total : Int
  records : List RecordEntry
deriving DecidableEq

/-- The record-search layer, abstracted: the response of
`find_record_in_zone` (`find_zone` + the `get_zone_records` RPC, NicTool.py
lines 166-182) as a function of zone name, record name and record type.  A
pure oracle: the same query always yields the same response within one
reconciliation call. -/
def FindOracle := String → String → String → RecordsResponse

/-- Observable side effects of the reconciliation layer: mutating RPCs and
warnings logged. -/
inductive Event where
  | deleteZoneRecordRPC (recordId : Nat)
  | newZoneRecordRPC (zone name rtype address : String)
  | warning
deriving DecidableEq

/-- Result of a Python call: normal return with the trace of events emitted,
or an exception (with the events already emitted before the raise). -/
inductive PyResult (α : Type) where
  | ok (val : α) (events : List Event)
  | exn (msg : String) (events : List Event)
deriving DecidableEq

/-- Embeds `find_record_in_zone` (NicTool.py lines 166-182) over the
abstract record-search oracle. -/
def find_record_in_zone (oracle : FindOracle) (zone record record_type : String) :
    RecordsResponse :=
  oracle zone record record_type

/-- Embeds `delete_record_from_zone` (NicTool.py lines 184-199): on
`total < 1` return `None`; on `total > 1` log one warning and return `None`;
otherwise take `records[0]` (an `IndexError` when the list is empty), issue
the `delete_zone_record` RPC for its identifier, and return the record. -/
def delete_record_from_zone (oracle : FindOracle) (zone record record_type : String) :
    PyResult (Option RecordEntry) :=
  let response := find_record_in_zone oracle zone record record_type
  if response.total < 1 then .ok none []
  else if response.total > 1 then .ok none [Event.warning]
  else
    match response.records with
    | [] => .exn ("IndexError: list index out of range") []
    | r :: _ => .ok (some r) [Event.deleteZoneRecordRPC r.nt_zone_record_id]

/-- The hostname branch of `delete_forward_and_reverse_records` (NicTool.py
lines 233-244): split host/zone, delete the unique A record; if one was
deleted, derive the PTR location from its address, look the PTR up, index
`records[0]` guarded only by the truthiness of the response, and delete the
PTR only when its value with trailing dots stripped equals `hostname`,
logging a warning otherwise.  The host/zone split is the abstracted
collaborator `h2nz`. -/
def dfrrHostBranch (h2nz : String → PyResult (String × String)) (oracle : FindOracle)
    (hostname : String) : PyResult Unit :=
  match h2nz hostname with
  | .exn m ev => .exn m ev
  | .ok (name, zone) ev0 =>
    match delete_record_from_zone oracle zone name ("A") with
    | .exn m ev => .exn m (ev0 ++ ev)
    | .ok record ev1 =>
      match record with
      | none => .ok () (ev0 ++ ev1)
      | some record =>
        match ip_to_arpa record.address with
        | none => .exn ("ValueError: not enough values to unpack") (ev0 ++ ev1)
        | some (name, zone) =>
          let ip_record := find_record_in_zone oracle zone name ("PTR")
          if ip_record.truthy then
            match ip_record.records with
            | [] => .exn ("IndexError: list index out of range") (ev0 ++ ev1)
            | ipr :: _ =>
              if pyRstrip ipr.address '.' != hostname then
                .ok () (ev0 ++ ev1 ++ [Event.warning])
              else
                match delete_record_from_zone oracle zone name ("PTR") with
                | .exn m ev2 => .exn m (ev0 ++ ev1 ++ ev2)
                | .ok _ ev2 => .ok () (ev0 ++ ev1 ++ ev2)
          else .ok () (ev0 ++ ev1)

/-- The ip branch of `delete_forward_and_reverse_records` (NicTool.py lines
246-251): derive the PTR location from `ip`, delete the unique PTR; if one
was deleted, compute `hostname.rstrip('.').partition('.')` — an
`AttributeError` when `hostname` is `None` — and delete that A record. -/
def dfrrIpBranch (oracle : FindOracle) (hostname : Option String) (i : String) :
    PyResult Unit :=
  match ip_to_arpa i with
  | none => .exn ("ValueError: not enough values to unpack") []
  | some (name, zone) =>
    match delete_record_from_zone oracle zone name ("PTR") with
    | .exn m ev => .exn m ev
    | .ok record ev1 =>
      match record with
      | none => .ok () ev1
      | some _ =>
        match hostname with
        | none => .exn ("AttributeError: NoneType object has no attribute rstrip") ev1
        | some h =>
          let p := partitionDot (pyRstrip h '.')
          match delete_record_from_zone oracle p.2.2 p.1 ("A") with
          | .exn m ev2 => .exn m (ev1 ++ ev2)
          | .ok _ ev2 => .ok () (ev1 ++ ev2)

/-- Embeds `delete_forward_and_reverse_records` (NicTool.py lines 230-251)
over the abstracted host/zone splitter and record-search oracle: the
hostname branch runs when `hostname` is truthy, then the ip branch when `ip`
is truthy. -/
def delete_forward_and_reverse_records (h2nz : String → PyResult (String × String))
    (oracle : FindOracle) (hostname ip : Option String) : PyResult Unit :=
  let r1 : PyResult Unit :=
    match hostname with
    | none => .ok () []
    | some h => if h == "" then .ok () [] else dfrrHostBranch h2nz oracle h
  match r1 with
  | .exn m ev => .exn m ev
  | .ok _ ev1 =>
    match ip with
    | none => .ok () ev1
    | some i =>
      if i == "" then .ok () ev1
      else
        match dfrrIpBranch oracle hostname i with
        | .exn m ev2 => .exn m (ev1 ++ ev2)
        | .ok _ ev2 => .ok () (ev1 ++ ev2)

/-- The record-creation collaborator: `add_record_to_zone` (NicTool.py lines
253-269, `find_zone` + the `new_zone_record` RPC) abstracted as a function
of zone, record name, record type, address and ttl. -/
def AddRecordFn := String → String → String → String → Int → PyResult Nat

/-- Embeds `add_forward_and_reverse_records` (NicTool.py lines 271-280):
silently return unless both `hostname` and `ipaddr` are truthy and the ip
passes `check_ip_addr`; otherwise create the A record for the host/zone
split and the PTR record at the ARPA location with value `hostname + "."`. -/
def add_forward_and_reverse_records (h2nz : String → PyResult (String × String))
    (add_record_to_zone : AddRecordFn) (hostname ipaddr : Option String) (ttl : Int) :
    PyResult Unit :=
  if pyStrTruthy hostname = false ∨ pyStrTruthy ipaddr = false then .ok () []
  else if check_ip_addr (ipaddr.getD "") = false then .ok () []
  else
    match h2nz (hostname.getD "") with
    | .exn m ev => .exn m ev
    | .ok (name, zone) ev0 =>
      match add_record_to_zone zone name ("A") (ipaddr.getD "") ttl with
      | .exn m ev => .exn m (ev0 ++ ev)
      | .ok _ ev1 =>
        match ip_to_arpa (ipaddr.getD "") with
        | none => .exn ("ValueError: not enough values to unpack") (ev0 ++ ev1)
        | some (name, zone) =>
          match add_record_to_zone zone name ("PTR") (hostname.getD "" ++ ".") ttl with
          | .exn m ev2 => .exn m (ev0 ++ ev1 ++ ev2)
          | .ok _ ev2 => .ok () (ev0 ++ ev1 ++ ev2)

/-- Embeds `add_forward_record` (NicTool.py lines 282-289): the same guards,
then only the A record creation. -/
def add_forward_record (h2nz : String → PyResult (String × String))
    (add_record_to_zone : AddRecordFn) (hostname ipaddr : Option String) (ttl : Int) :
    PyResult Unit :=
  if pyStrTruthy hostname = false ∨ pyStrTruthy ipaddr = false then .ok () []
  else if check_ip_addr (ipaddr.getD "") = false then .ok () []
  else
    match h2nz (hostname.getD "") with
    | .exn m ev => .exn m ev
    | .ok (name, zone) ev0 =>
      match add_record_to_zone zone name ("A") (ipaddr.getD "") ttl with
      | .exn m ev => .exn m (ev0 ++ ev)
      | .ok _ ev1 => .ok () (ev0 ++ ev1)

/-- Embeds `add_reverse_record` (NicTool.py lines 291-298): the same guards,
then only the PTR record creation at the ARPA location. -/
def add_reverse_record (add_record_to_zone : AddRecordFn)
    (hostname ipaddr : Option String) (ttl : Int) : PyResult Unit :=
  if pyStrTruthy hostname = false ∨ pyStrTruthy ipaddr = false then .ok () []
  else if check_ip_addr (ipaddr.getD "") = false then .ok () []
  else
    match ip_to_arpa (ipaddr.getD "") with
    | none => .exn ("ValueError: not enough values to unpack") []
    | some (name, zone) =>
      match add_record_to_zone zone name ("PTR") (hostname.getD "" ++ ".") ttl with
      | .exn m ev => .exn m ev
      | .ok _ ev1 => .ok () ev1

/-- The session-relevant state of the `NicTool` object: `activity_timestamp`
and the optional `nt_user_session` token. -/
structure ClientState where
  activity_timestamp : Int
  nt_user_session : Option String
deriving DecidableEq

/-- Embeds the session-management prefix of `_make_api_call` (NicTool.py
lines 79-86): compute the idle time, refresh `activity_timestamp`, and if
the idle time exceeds 120 or no token exists while the call arguments carry
no truthy `username`, discard the token and perform `self.login(...)` —
itself a nested `_make_api_call` carrying `username = self.username` at the
same instant — adopting the returned token (the login RPC response token is
the `loginToken` oracle).  Returns the new state and the number of login
calls performed, or `none` when the recursion fuel runs out. -/
def make_api_call (selfUsername loginToken : String) :
    Nat → ClientState → Int → Option String → Option (ClientState × Nat)
  | 0, _, _, _ => none
  | f + 1, st, now, argsUsername =>
    let seconds_idle := now - st.activity_timestamp
    let st1 : ClientState := { st with activity_timestamp := now }
    if 120 < seconds_idle ∨ (st1.nt_user_session = none ∧ pyStrTruthy argsUsername = false) then
      let st2 : ClientState := { st1 with nt_user_session := none }
      match make_api_call selfUsername loginToken f st2 now (some selfUsername) with
      | none => none
      | some (st3, n) => some ({ st3 with nt_user_session := some loginToken }, n + 1)
    else
      some (st1, 0)

/-- A concrete host/zone splitting collaborator for witnesses: it knows the
name `host.example.com`. -/
def wSplit : String → PyResult (String × String) := fun h =>
  if h = "host.example.com" then .ok ("host", "example.com") []
  else .exn ("Unable to find zone " ++ pyRstrip h '.') []

/-- The A record for the witnesses: identifier 11, address `10.20.30.40`. -/
def wARec : RecordEntry := { nt_zone_record_id := 11, address := "10.20.30.40" }

/-- The matching PTR record for the witnesses: identifier 22, value
`host.example.com.`. -/
def wPtrRec : RecordEntry := { nt_zone_record_id := 22, address := "host.example.com." }

/-- A PTR record pointing at a different host: identifier 23, value
`other.example.com.`. -/
def wPtrOther : RecordEntry := { nt_zone_record_id := 23, address := "other.example.com." }

/-- A concrete record-search oracle: a unique A record `host` in
`example.com`, its matching PTR at `40` / `30.20.10.in-addr.arpa`, an
ambiguous pair of A records `m` in `multi.zone`, and nothing else. -/
def wOracle : FindOracle := fun zone name rtype =>
  if zone = "example.com" ∧ name = "host" ∧ rtype = "A" then
    { truthy := true, total := 1, records := [wARec] }
  else if zone = "30.20.10.in-addr.arpa" ∧ name = "40" ∧ rtype = "PTR" then
    { truthy := true, total := 1, records := [wPtrRec] }
  else if zone = "multi.zone" ∧ name = "m" ∧ rtype = "A" then
    { truthy := true, total := 2,
      records := [{ nt_zone_record_id := 31, address := "1.1.1.1" },
                  { nt_zone_record_id := 32, address := "1.1.1.2" }] }
  else { truthy := true, total := 0, records := [] }

/-- Like `wOracle` but the PTR at `40` / `30.20.10.in-addr.arpa` points at
`other.example.com.` instead of `host.example.com.`. -/
def wOracleMismatch : FindOracle := fun zone name rtype =>
  if zone = "example.com" ∧ name = "host" ∧ rtype = "A" then
    { truthy := true, total := 1, records := [wARec] }
  else if zone = "30.20.10.in-addr.arpa" ∧ name = "40" ∧ rtype = "PTR" then
    { truthy := true, total := 1, records := [wPtrOther] }
  else { truthy := true, total := 0, records := [] }

/-- Like `wOracle` but the PTR search response is truthy while carrying an
empty `records` list. -/
def wOracleEmpty : FindOracle := fun zone name rtype =>
  if zone = "example.com" ∧ name = "host" ∧ rtype = "A" then
    { truthy := true, total := 1, records := [wARec] }
  else { truthy := true, total := 0, records := [] }

/-- A record-creation collaborator for witnesses: always succeeds with
identifier 99, recording the creation RPC. -/
def wAddRec : AddRecordFn := fun zone name rtype address _ =>
  .ok 99 [Event.newZoneRecordRPC zone name rtype address]

/-- In `find_zone` the loop guard `while remaining > 0 and zone_id:` reads
the variable `zone_id`, which is still `None` at entry, so the guard is
false before the first iteration: the search loop never executes and the
function falls through to `raise Exception(...)` for every input and every
environment. -/
theorem find_zone_raises (pages : ZonePages) (fuel : Nat) (w : String) :
    find_zone pages fuel w = .error ("Unable to find zone " ++ w) := by
  cases fuel <;> simp [find_zone, findZoneGo, pyIntTruthy]

/-- Behaviour of `delete_record_from_zone` when the search reports no match. -/
theorem drfzNotFound (oracle : FindOracle) (z n t : String)
    (h : (oracle z n t).total < 1) :
    delete_record_from_zone oracle z n t = .ok none [] := by
  simp [delete_record_from_zone, find_record_in_zone, h]

/-- Behaviour of `delete_record_from_zone` when the search reports more than
one match: one warning, no delete RPC. -/
theorem drfzAmbiguous (oracle : FindOracle) (z n t : String)
    (h : 1 < (oracle z n t).total) :
    delete_record_from_zone oracle z n t = .ok none [Event.warning] := by
  have h1 : ¬ (oracle z n t).total < 1 := by omega
  simp [delete_record_from_zone, find_record_in_zone, h, h1]

/-- Behaviour of `delete_record_from_zone` on a unique match: one delete RPC
for the matched identifier, returning the record. -/
theorem drfzSingle (oracle : FindOracle) (z n t : String) (r : RecordEntry)
    (rest : List RecordEntry) (ht : (oracle z n t).total = 1)
    (hr : (oracle z n t).records = r :: rest) :
    delete_record_from_zone oracle z n t =
      .ok (some r) [Event.deleteZoneRecordRPC r.nt_zone_record_id] := by
  simp [delete_record_from_zone, find_record_in_zone, ht, hr]

/-- Splitting a dot-free character list yields the single whole part. -/
theorem splitDot_no_dot (xs : List Char) (h : ∀ c ∈ xs, c ≠ '.') : splitDot xs = [xs] := by
  induction xs with
  | nil => rfl
  | cons c rest ih =>
    have hc : c ≠ '.' := h c (by simp)
    have hr := ih (fun x hx => h x (by simp [hx]))
    simp [splitDot, hc, hr]

/-- Splitting peels a dot-free part before the first dot. -/
theorem splitDot_append (xs ys : List Char) (h : ∀ c ∈ xs, c ≠ '.') :
    splitDot (xs ++ '.' :: ys) = xs :: splitDot ys := by
  induction xs with
  | nil => simp [splitDot]
  | cons c rest ih =>
    have hc : c ≠ '.' := h c (by simp)
    have hr := ih (fun x hx => h x (by simp [hx]))
    simp [splitDot, hc, hr]

/-- C1: in `delete_forward_and_reverse_records` with a hostname supplied (and
no ip), when the unique A record is found and deleted and the PTR record at
the ARPA location derived from its address is found, then: if the PTR value
with trailing dots stripped equals the hostname (and the PTR search reports
a unique match), both the A and the PTR delete RPCs are issued; if it
differs, only the A delete RPC is issued, exactly one warning is logged, and
no PTR delete RPC occurs. -/
theorem dfrr_hostname_ptr_guard
    (h2nz : String → PyResult (String × String)) (oracle : FindOracle)
    (hostname name zone rname rzone : String) (arec prec : RecordEntry)
    (arest prest : List RecordEntry)
    (hh : hostname ≠ "")
    (h1 : h2nz hostname = .ok (name, zone) [])
    (h2t : (oracle zone name ("A")).total = 1)
    (h2r : (oracle zone name ("A")).records = arec :: arest)
    (h3 : ip_to_arpa arec.address = some (rname, rzone))
    (h4 : (oracle rzone rname ("PTR")).truthy = true)
    (h5 : (oracle rzone rname ("PTR")).records = prec :: prest) :
    (pyRstrip prec.address '.' = hostname → (oracle rzone rname ("PTR")).total = 1 →
      delete_forward_and_reverse_records h2nz oracle (some hostname) none =
        .ok () [Event.deleteZoneRecordRPC arec.nt_zone_record_id,
                Event.deleteZoneRecordRPC prec.nt_zone_record_id]) ∧
    (pyRstrip prec.address '.' ≠ hostname →
      delete_forward_and_reverse_records h2nz oracle (some hostname) none =
        .ok () [Event.deleteZoneRecordRPC arec.nt_zone_record_id, Event.warning]) := by
  have hA := drfzSingle oracle zone name ("A") arec arest h2t h2r
  constructor
  · intro hm ht1
    have hP := drfzSingle oracle rzone rname ("PTR") prec prest ht1 h5
    simp [delete_forward_and_reverse_records, dfrrHostBranch, hh, h1, hA, h3,
      find_record_in_zone, h4, h5, hm, hP]
  · intro hm
    simp [delete_forward_and_reverse_records, dfrrHostBranch, hh, h1, hA, h3,
      find_record_in_zone, h4, h5, hm]

/-- Witness for C1: with the concrete environments, the matching PTR is
deleted together with the A record, and a mismatching PTR yields only the A
delete plus one warning. -/
theorem dfrr_hostname_ptr_guard_witness :
    (delete_forward_and_reverse_records wSplit wOracle (some ("host.example.com")) none =
      .ok () [Event.deleteZoneRecordRPC 11, Event.deleteZoneRecordRPC 22]) ∧
    (delete_forward_and_reverse_records wSplit wOracleMismatch (some ("host.example.com")) none =
      .ok () [Event.deleteZoneRecordRPC 11, Event.warning]) := by
  constructor
  · exact (dfrr_hostname_ptr_guard wSplit wOracle ("host.example.com") ("host") ("example.com")
      ("40") ("30.20.10.in-addr.arpa") wARec wPtrRec [] []
      (by decide) (by decide) (by decide) (by decide) (by decide) (by decide) (by decide)).1
      (by decide) (by decide)
  · exact (dfrr_hostname_ptr_guard wSplit wOracleMismatch ("host.example.com") ("host")
      ("example.com") ("40") ("30.20.10.in-addr.arpa") wARec wPtrOther [] []
      (by decide) (by decide) (by decide) (by decide) (by decide) (by decide) (by decide)).2
      (by decide)

/-- C2: the claimed host/zone split never happens.  With `example.com`
registered (environment `onlyExampleCom`), `hostname_to_name_zone` on
`host.example.com` does not return `("host", "example.com")`: the first
`find_zone` call raises — its `while remaining > 0 and zone_id:` guard is
false at entry because `zone_id` is `None` — and the exception propagates. -/
theorem hostname_to_name_zone_raises_on_registered :
    hostname_to_name_zone onlyExampleCom 10 10 ("host.example.com") =
      .error ("Unable to find zone host.example.com") := by rfl

/-- C3: `find_zone` never returns an identifier.  Concretely, in the
environment `onlyExampleCom` whose first page contains the exact
case-insensitive match `example.com` with identifier 42, `find_zone` still
raises `Unable to find zone example.com`; and universally, for every paging
environment, fuel and requested name, `find_zone` raises, because the
pagination loop guard `remaining > 0 and zone_id` is false on entry
(`zone_id` is `None`), contradicting the documented behaviour of returning
the matching identifier. -/
theorem find_zone_never_finds :
    (find_zone onlyExampleCom 10 ("example.com") =
      .error ("Unable to find zone example.com")) ∧
    (∀ (pages : ZonePages) (fuel : Nat) (w : String),
      find_zone pages fuel w = .error ("Unable to find zone " ++ w)) :=
  ⟨find_zone_raises onlyExampleCom 10 ("example.com"),
   fun pages fuel w => find_zone_raises pages fuel w⟩

/-- C4: `delete_record_from_zone` returns `None` with no mutating RPC when
the search reports fewer than one match; returns `None` with no mutating RPC
and exactly one warning when it reports more than one; and on exactly one
reported match whose record list is headed by `r`, issues exactly one delete
RPC for the identifier of `r` and returns `r`. -/
theorem delete_record_from_zone_cases (oracle : FindOracle) (zone record record_type : String) :
    ((oracle zone record record_type).total < 1 →
      delete_record_from_zone oracle zone record record_type = .ok none []) ∧
    (1 < (oracle zone record record_type).total →
      delete_record_from_zone oracle zone record record_type = .ok none [Event.warning]) ∧
    (∀ r rest, (oracle zone record record_type).total = 1 →
      (oracle zone record record_type).records = r :: rest →
      delete_record_from_zone oracle zone record record_type =
        .ok (some r) [Event.deleteZoneRecordRPC r.nt_zone_record_id]) :=
  ⟨drfzNotFound oracle zone record record_type,
   drfzAmbiguous oracle zone record record_type,
   fun r rest ht hr => drfzSingle oracle zone record record_type r rest ht hr⟩

/-- Witness for C4: the three cases evaluated in the concrete oracle
`wOracle` (no match, two matches, unique match). -/
theorem delete_record_from_zone_cases_witness :
    (delete_record_from_zone wOracle ("nowhere.zone") ("x") ("A") = .ok none []) ∧
    (delete_record_from_zone wOracle ("multi.zone") ("m") ("A") = .ok none [Event.warning]) ∧
    (delete_record_from_zone wOracle ("example.com") ("host") ("A") =
      .ok (some wARec) [Event.deleteZoneRecordRPC 11]) := by
  refine ⟨?_, ?_, ?_⟩
  · exact (delete_record_from_zone_cases wOracle ("nowhere.zone") ("x") ("A")).1 (by decide)
  · exact (delete_record_from_zone_cases wOracle ("multi.zone") ("m") ("A")).2.1 (by decide)
  · exact (delete_record_from_zone_cases wOracle ("example.com") ("host") ("A")).2.2 wARec []
      (by decide) (by decide)

/-- C5: the claimed soft failure does not happen for unregistered names.
With no zones registered (environment `noZones`), `hostname_to_name_zone` on
`a.b` raises `Unable to find zone a.b` from the first `find_zone` call
instead of returning `("a.b", "")`: `find_zone` raises rather than returning
a falsy identifier, so the peeling branch and the empty-zone return are
unreachable for any non-empty stripped input.  Only an input that strips to
the empty string reaches the normal return `("", "")`. -/
theorem hostname_to_name_zone_raises_on_unregistered :
    (hostname_to_name_zone noZones 10 10 ("a.b") = .error ("Unable to find zone a.b")) ∧
    (hostname_to_name_zone noZones 10 10 ("") = .ok ("", "")) := by
  exact ⟨by rfl, by rfl⟩

/-- C6: for every dotted quad built from four dot-free components,
`ip_to_arpa` returns the last component paired with the reversed first three
joined onto `.in-addr.arpa`. -/
theorem ip_to_arpa_correct (a b c d : String)
    (ha : ∀ ch ∈ a.data, ch ≠ '.') (hb : ∀ ch ∈ b.data, ch ≠ '.')
    (hc : ∀ ch ∈ c.data, ch ≠ '.') (hd : ∀ ch ∈ d.data, ch ≠ '.') :
    ip_to_arpa (a ++ "." ++ b ++ "." ++ c ++ "." ++ d) =
      some (d, c ++ "." ++ b ++ "." ++ a ++ ".in-addr.arpa") := by
  have hdot : ("." : String).data = ['.'] := rfl
  have hdata : (a ++ "." ++ b ++ "." ++ c ++ "." ++ d).data
      = a.data ++ '.' :: (b.data ++ '.' :: (c.data ++ '.' :: d.data)) := by
    simp [String.data_append, hdot]
  have hmk : ∀ s : String, String.mk s.data = s := fun s => by cases s; rfl
  unfold ip_to_arpa
  rw [hdata, splitDot_append _ _ ha, splitDot_append _ _ hb, splitDot_append _ _ hc,
      splitDot_no_dot _ hd]
  simp [hmk]

/-- Witness for C6: `ip_to_arpa("10.20.30.40")` is
`("40", "30.20.10.in-addr.arpa")`. -/
theorem ip_to_arpa_correct_witness :
    ip_to_arpa ("10.20.30.40") = some ("40", "30.20.10.in-addr.arpa") := by
  have h := ip_to_arpa_correct ("10") ("20") ("30") ("40")
    (by decide) (by decide) (by decide) (by decide)
  exact h

/-- C7: the session logic of `_make_api_call`.  Within the 120 idle
threshold, the call performs no login when a token exists, and likewise when
the call arguments carry a truthy `username`; when the idle time exceeds
120, or no token exists and the arguments carry no truthy `username`,
exactly one login call is performed (the nested login call itself triggers
no further login, given a non-empty configured username) and the returned
token is adopted.  In all cases `activity_timestamp` is refreshed. -/
theorem make_api_call_login_policy (selfU tok : String) (st : ClientState) (now : Int)
    (argsU : Option String) (f : Nat) (hU : selfU ≠ "") :
    ((¬ 120 < now - st.activity_timestamp) → st.nt_user_session.isSome = true →
      make_api_call selfU tok (f + 1) st now argsU =
        some ({ st with activity_timestamp := now }, 0)) ∧
    ((¬ 120 < now - st.activity_timestamp) → pyStrTruthy argsU = true →
      make_api_call selfU tok (f + 1) st now argsU =
        some ({ st with activity_timestamp := now }, 0)) ∧
    ((120 < now - st.activity_timestamp ∨
        (st.nt_user_session = none ∧ pyStrTruthy argsU = false)) →
      make_api_call selfU tok (f + 2) st now argsU =
        some ({ activity_timestamp := now, nt_user_session := some tok }, 1)) := by
  have hsu : pyStrTruthy (some selfU) = true := by simp [pyStrTruthy, hU]
  have hnest : make_api_call selfU tok (f + 1)
      { activity_timestamp := now, nt_user_session := none } now (some selfU) =
      some ({ activity_timestamp := now, nt_user_session := none }, 0) := by
    simp [make_api_call, hsu]
  refine ⟨?_, ?_, ?_⟩
  · intro hidle hsome
    have hne : st.nt_user_session ≠ none := by
      cases hstu : st.nt_user_session with
      | none => rw [hstu] at hsome; simp at hsome
      | some s => simp
    simp [make_api_call, hidle, hne]
  · intro hidle htr
    simp [make_api_call, hidle, htr]
  · intro hcond
    rcases hcond with h | ⟨h1, h2⟩
    · simp [make_api_call, h, hsu, hnest]
    · simp [make_api_call, h1, h2, hsu, hnest]

/-- Witness for C7: an in-threshold call with a token performs no login; a
call after 500 idle time units performs exactly one login and adopts the new
token. -/
theorem make_api_call_login_policy_witness :
    (make_api_call ("admin") ("tok") 1
        { activity_timestamp := 0, nt_user_session := some ("t0") } 50 none =
      some ({ activity_timestamp := 50, nt_user_session := some ("t0") }, 0)) ∧
    (make_api_call ("admin") ("tok") 2
        { activity_timestamp := 0, nt_user_session := some ("t0") } 500 none =
      some ({ activity_timestamp := 500, nt_user_session := some ("tok") }, 1)) := by
  constructor
  · exact (make_api_call_login_policy ("admin") ("tok")
      { activity_timestamp := 0, nt_user_session := some ("t0") } 50 none 0
      (by decide)).1 (by decide) (by decide)
  · exact (make_api_call_login_policy ("admin") ("tok")
      { activity_timestamp := 0, nt_user_session := some ("t0") } 500 none 0
      (by decide)).2.2 (Or.inl (by decide))

/-- C8: whenever the hostname is missing or empty, the ip is missing or
empty, or the ip fails `check_ip_addr`, each of the three creation
operations returns normally with no RPC issued and no warning: a silent
no-op. -/
theorem add_records_invalid_input_noop (h2nz : String → PyResult (String × String))
    (arz : AddRecordFn) (hostname ipaddr : Option String) (ttl : Int)
    (h : pyStrTruthy hostname = false ∨ pyStrTruthy ipaddr = false ∨
         check_ip_addr (ipaddr.getD "") = false) :
    add_forward_and_reverse_records h2nz arz hostname ipaddr ttl = .ok () [] ∧
    add_forward_record h2nz arz hostname ipaddr ttl = .ok () [] ∧
    add_reverse_record arz hostname ipaddr ttl = .ok () [] := by
  by_cases h1 : pyStrTruthy hostname = false ∨ pyStrTruthy ipaddr = false
  · exact ⟨by simp [add_forward_and_reverse_records, h1], by simp [add_forward_record, h1],
      by simp [add_reverse_record, h1]⟩
  · have h2 : check_ip_addr (ipaddr.getD "") = false := by tauto
    exact ⟨by simp [add_forward_and_reverse_records, h1, h2],
      by simp [add_forward_record, h1, h2], by simp [add_reverse_record, h1, h2]⟩

/-- Witness for C8: the malformed address `10.20.30.999` makes all three
creation operations silent no-ops. -/
theorem add_records_invalid_input_noop_witness :
    (add_forward_and_reverse_records wSplit wAddRec (some ("host.example.com"))
        (some ("10.20.30.999")) 3600 = .ok () []) ∧
    (add_forward_record wSplit wAddRec (some ("host.example.com"))
        (some ("10.20.30.999")) 3600 = .ok () []) ∧
    (add_reverse_record wAddRec (some ("host.example.com"))
        (some ("10.20.30.999")) 3600 = .ok () []) := by
  exact add_records_invalid_input_noop wSplit wAddRec (some ("host.example.com"))
    (some ("10.20.30.999")) 3600 (Or.inr (Or.inr (by decide)))

/-- C9: calling `delete_forward_and_reverse_records` with only an ip, when
the unique PTR record at the derived ARPA location is found, deletes that
PTR (the delete RPC appears in the trace) and then raises an
`AttributeError` on `hostname.rstrip` because `hostname` is `None`, so the
forward A record is never deleted. -/
theorem dfrr_ip_only_attribute_error (h2nz : String → PyResult (String × String))
    (oracle : FindOracle) (i pname pzone : String) (p : RecordEntry) (rest : List RecordEntry)
    (hi : i ≠ "")
    (h1 : ip_to_arpa i = some (pname, pzone))
    (h2t : (oracle pzone pname ("PTR")).total = 1)
    (h2r : (oracle pzone pname ("PTR")).records = p :: rest) :
    delete_forward_and_reverse_records h2nz oracle none (some i) =
      .exn ("AttributeError: NoneType object has no attribute rstrip")
        [Event.deleteZoneRecordRPC p.nt_zone_record_id] := by
  have hP := drfzSingle oracle pzone pname ("PTR") p rest h2t h2r
  simp [delete_forward_and_reverse_records, dfrrIpBranch, hi, h1, hP]

/-- Witness for C9: deleting by ip `10.20.30.40` alone deletes PTR record 22
and then raises. -/
theorem dfrr_ip_only_attribute_error_witness :
    delete_forward_and_reverse_records wSplit wOracle none (some ("10.20.30.40")) =
      .exn ("AttributeError: NoneType object has no attribute rstrip")
        [Event.deleteZoneRecordRPC 22] := by
  exact dfrr_ip_only_attribute_error wSplit wOracle ("10.20.30.40") ("40")
    ("30.20.10.in-addr.arpa") wPtrRec [] (by decide) (by decide) (by decide) (by decide)

/-- C10: in the hostname branch, after the A record is deleted, a PTR search
response that is truthy but carries an empty `records` list makes the
operation raise an `IndexError` (the indexing at position 0 is guarded only
by the truthiness of the whole response, not by its match count — here the
reported total is 0). -/
theorem dfrr_truthy_empty_records_index_error
    (h2nz : String → PyResult (String × String)) (oracle : FindOracle)
    (hostname name zone rname rzone : String) (arec : RecordEntry) (arest : List RecordEntry)
    (hh : hostname ≠ "")
    (h1 : h2nz hostname = .ok (name, zone) [])
    (h2t : (oracle zone name ("A")).total = 1)
    (h2r : (oracle zone name ("A")).records = arec :: arest)
    (h3 : ip_to_arpa arec.address = some (rname, rzone))
    (h4 : (oracle rzone rname ("PTR")).truthy = true)
    (h5 : (oracle rzone rname ("PTR")).records = []) :
    delete_forward_and_reverse_records h2nz oracle (some hostname) none =
      .exn ("IndexError: list index out of range")
        [Event.deleteZoneRecordRPC arec.nt_zone_record_id] := by
  have hA := drfzSingle oracle zone name ("A") arec arest h2t h2r
  simp [delete_forward_and_reverse_records, dfrrHostBranch, hh, h1, hA, h3,
    find_record_in_zone, h4, h5]

/-- Witness for C10: with the oracle whose PTR response is truthy but empty,
the A record 11 is deleted and the call then raises an index error. -/
theorem dfrr_truthy_empty_records_index_error_witness :
    delete_forward_and_reverse_records wSplit wOracleEmpty (some ("host.example.com")) none =
      .exn ("IndexError: list index out of range") [Event.deleteZoneRecordRPC 11] := by
  exact dfrr_truthy_empty_records_index_error wSplit wOracleEmpty ("host.example.com")
    ("host") ("example.com") ("40") ("30.20.10.in-addr.arpa") wARec []
    (by decide) (by decide) (by decide) (by decide) (by decide) (by decide) (by decide)
